import Mathlib

/-!
Verification development for the a7p ballistic-profile library.

The definitions below are a shallow embedding of the validation and recovery
core of the repository:

* `spec_validator.py` — the path-keyed `SpecValidator` engine, its assertion
  helpers (`assert_float_range`, `assert_int_range`, `assert_items_count`,
  `assert_choice`, `assert_shorter_le`) and the profile-specific checks
  (`_check_distances`, `_check_dependency_distances`, `_check_coef_rows`).
* `yup/schema.py` and `yup/obj_schema.py` — the composable object-schema
  engine with `abort_early` (fail-fast) versus collect-all semantics.
* `recover/recover.py` and `recover/recover_process.py` (together with the
  `recover_payload` driver of `__main__.py`) — the two-tier recovery
  registry and pipeline.

Python scalar values are embedded as a generic tagged value `GValue`;
protobuf scaled integers are `Int`, and the range checks that divide by a
divisor are carried out in `ℚ` (the stored values are integers, and the
divisions performed by the validator are exact at every boundary the spec
talks about).  Python `pathlib.Path` values are embedded as strings joined
with `/`, matching `Path.as_posix`.
-/

/-- Generic in-memory value: the tree of maps / lists / scalars that
`a7p.to_dict` produces and the validators walk. -/
inductive GValue where
  | null : GValue
  | bool (b : Bool) : GValue
  | int (n : Int) : GValue
  | str (s : String) : GValue
  | list (xs : List GValue) : GValue
  | dict (fields : List (String × GValue)) : GValue

mutual
/-- Structural equality on generic values (Python `==`). -/
def GValue.beq : GValue → GValue → Bool
  | .null, .null => true
  | .bool a, .bool b => a == b
  | .int a, .int b => a == b
  | .str a, .str b => a == b
  | .list xs, .list ys => GValue.beqList xs ys
  | .dict xs, .dict ys => GValue.beqDict xs ys
  | _, _ => false

def GValue.beqList : List GValue → List GValue → Bool
  | [], [] => true
  | x :: xs, y :: ys => GValue.beq x y && GValue.beqList xs ys
  | _, _ => false

def GValue.beqDict : List (String × GValue) → List (String × GValue) → Bool
  | [], [] => true
  | (k, x) :: xs, (l, y) :: ys =>
      k == l && GValue.beq x y && GValue.beqDict xs ys
  | _, _ => false
end

/-- Association-list lookup, first match wins (Python `dict.get`; the
registries never register the same key twice, `register` raises on
duplicates). -/
def alookup {α : Type} : List (String × α) → String → Option α
  | [], _ => none
  | (k, v) :: rest, key => if k = key then some v else alookup rest key

/-- Python `path / key` on `pathlib.Path`, rendered as posix. -/
def pathJoin (path key : String) : String := path ++ "/" ++ key

/-- Helper for `pathName`: the characters after the last `/`. -/
def lastComp : List Char → List Char → List Char
  | [], acc => acc.reverse
  | c :: rest, acc =>
      if c = '/' then lastComp rest [] else lastComp rest (c :: acc)

/-- Python `Path.name`: the last `/`-separated component. -/
def pathName (path : String) : String := String.mk (lastComp path.data [])

/-- Rendering of a scaled bound in a range message (Python formats it with
`:.1f`; we render the exact rational, which is all the claims need). -/
def ratRepr (q : ℚ) : String :=
  toString q.num ++ (if q.den = 1 then ".0" else "/" ++ toString q.den)

namespace SpecV

/-- `exceptions.SpecViolation`: a field path, the offending value and a
human-readable reason. -/
structure SpecViolation where
  path : String
  value : GValue
  reason : String

/-- `assert_shorter_le(string, max_len)` from `spec_validator.py`. -/
def assert_shorter_le (string : String) (max_len : Nat) : Bool × String :=
  (string.length ≤ max_len, s!"expected string shorter than {max_len} characters")

/-- `assert_float_range(value, min_value, max_value, divisor)` from
`spec_validator.py`: a stored value is valid iff
`min_value <= value / divisor <= max_value`.  The stored `value` and the
`divisor` are integers at every call site; the `value / divisor` quotient is
the exact rational `Rat.divInt value divisor`, and `min ≤ x ≤ max` is the
boolean `¬(x < min) && ¬(max < x)` (see `assert_float_range_iff`). -/
def assert_float_range (value : Int) (min_value max_value : ℚ)
    (divisor : Int := 1) : Bool × String :=
  (!Rat.blt (Rat.divInt value divisor) min_value
      && !Rat.blt max_value (Rat.divInt value divisor),
    "expected value in range [" ++ ratRepr (min_value * divisor) ++ ", "
      ++ ratRepr (max_value * divisor) ++ "]")

/-- `assert_int_range(value, min_value, max_value)` from `spec_validator.py`. -/
def assert_int_range (value min_value max_value : Int) : Bool × String :=
  (decide (min_value ≤ value ∧ value ≤ max_value),
    s!"expected integer value in range [{min_value}, {max_value}]")

/-- `assert_choice(value, keys)` from `spec_validator.py`: Python
`value in keys`. -/
def assert_choice (value : GValue) (keys : List GValue) (keysRepr : String) :
    Bool × String :=
  (keys.any (GValue.beq value), "expected one of " ++ keysRepr)

/-- `assert_items_count(items, min_count, max_count)` from
`spec_validator.py`. -/
def assert_items_count (items : List GValue) (min_count max_count : Nat) :
    Bool × String :=
  let items_len := items.length
  if items_len < min_count then
    (false, s!"expected minimum {min_count} item(s) but got {items_len}")
  else if items_len > max_count then
    (false, s!"expected maximum {max_count} item(s) but got {items_len}")
  else (true, "")

/-- A registered validation function.  In the source a criterion function
receives `(data, path, violations)` and may itself append to `violations`;
it returns `(is_valid, reason)`.  Here it returns the violations it appended
itself together with that pair. -/
def CritFun : Type := GValue → String → List SpecViolation × Bool × String

/-- A pure criterion function that appends nothing itself. -/
def pureCrit (f : GValue → Bool × String) : CritFun := fun data _ => ([], f data)

/-- The `"~"` criterion registered by `SpecValidator.__init__`: always passes. -/
def passCrit : CritFun := fun _ _ => ([], true, "")

/-- `SpecCriterion.validate(data, path, violations)`: run the criterion
function, then append a `SpecViolation` at `path` when it reports invalid.
(The `TypeError` branches of the source are unreachable here because the
embedded data is well-typed; the type-guard failures of the `assert_*`
helpers are modelled inside the individual criterion functions.) -/
def SpecCriterion.validate (f : CritFun) (data : GValue) (path : String)
    (violations : List SpecViolation) : List SpecViolation × Bool × String :=
  let (extra, is_valid, reason) := f data path
  let violations := violations ++ extra
  if is_valid then (violations, true, reason)
  else (violations ++ [⟨path, data, reason⟩], false, reason)

/-- `SpecValidator.get_criteria(path)`: look the criterion up by the last
path component first, falling back to the full path. -/
def get_criteria (criteria : List (String × CritFun)) (path : String) :
    Option CritFun :=
  match alookup criteria (pathName path) with
  | some f => some f
  | none => alookup criteria path

mutual
/-- `SpecValidator.validate(data, path, violations)`: recurse into dict
values and list items, then apply the criterion registered for the current
path (if any).  Returns the accumulated violations list. -/
def svValidate (criteria : List (String × CritFun)) (data : GValue)
    (path : String) (violations : List SpecViolation) : List SpecViolation :=
  let violations :=
    match data with
    | GValue.dict fields => svFields criteria fields path violations
    | GValue.list xs => svItems criteria xs path 0 violations
    | _ => violations
  match get_criteria criteria path with
  | some f => (SpecCriterion.validate f data path violations).1
  | none => violations
termination_by structural data

/-- The dict branch of `SpecValidator.validate`: visit key/value pairs in
insertion order. -/
def svFields (criteria : List (String × CritFun))
    (fields : List (String × GValue)) (path : String)
    (violations : List SpecViolation) : List SpecViolation :=
  match fields with
  | [] => violations
  | (k, v) :: rest =>
      svFields criteria rest path
        (svValidate criteria v (pathJoin path k) violations)
termination_by structural fields

/-- The list branch of `SpecValidator.validate`: visit items in index
order, at paths `path/[i]`. -/
def svItems (criteria : List (String × CritFun)) (items : List GValue)
    (path : String) (i : Nat) (violations : List SpecViolation) :
    List SpecViolation :=
  match items with
  | [] => violations
  | x :: rest =>
      svItems criteria rest path (i + 1)
        (svValidate criteria x (pathJoin path ("[" ++ toString i ++ "]"))
          violations)
termination_by structural items
end

/-! Field-level check functions of `spec_validator.py`.  Each `assert_spec_type`
decorator of the source raises a type error for values of the wrong generic
kind, which `SpecCriterion.validate` turns into a failed result with a
`Type error: ...` reason: the wrong-kind branches below return exactly that
failed result. -/

/-- `_check_c_muzzle_velocity`: range `[10.0, 3000.0]`, divisor 10. -/
def _check_c_muzzle_velocity : CritFun := pureCrit fun d =>
  match d with
  | GValue.int n => assert_float_range n 10 3000 10
  | _ => (false, "Type error: expected float or int")

/-- `_check_c_zero_distance_idx`: integer range `[0, 200]`. -/
def _check_c_zero_distance_idx : CritFun := pureCrit fun d =>
  match d with
  | GValue.int n => assert_int_range n 0 200
  | _ => (false, "Type error: expected int")

/-- `_check_one_distance`: range `[1.0, 3000.0]`, divisor 100. -/
def _check_one_distance : CritFun := pureCrit fun d =>
  match d with
  | GValue.int n => assert_float_range n 1 3000 100
  | _ => (false, "Type error: expected float or int")

/-- `_check_bc_type`: one of `G7`, `G1`, `CUSTOM`. -/
def _check_bc_type : CritFun := pureCrit fun d =>
  assert_choice d [GValue.str "G7", GValue.str "G1", GValue.str "CUSTOM"]
    "[G7, G1, CUSTOM]"

/-- `_check_bc_value`: range `[0.0, 10.0]`, divisor 10000. -/
def _check_bc_value : CritFun := pureCrit fun d =>
  match d with
  | GValue.int n => assert_float_range n 0 10 10000
  | _ => (false, "Type error: expected float or int")

/-- `_check_cd_value`: range `[0.0, 10.0]`, divisor 10000. -/
def _check_cd_value : CritFun := pureCrit fun d =>
  match d with
  | GValue.int n => assert_float_range n 0 10 10000
  | _ => (false, "Type error: expected float or int")

/-- `_check_ma_value`: range `[0.0, 10.0]`, divisor 10000. -/
def _check_ma_value : CritFun := pureCrit fun d =>
  match d with
  | GValue.int n => assert_float_range n 0 10 10000
  | _ => (false, "Type error: expected float or int")

/-- `_check_mv_value`: range `[0.0, 3000.0]`, divisor 10. -/
def _check_mv_value : CritFun := pureCrit fun d =>
  match d with
  | GValue.int n => assert_float_range n 0 3000 10
  | _ => (false, "Type error: expected float or int")

/-- `_check_dependency_distances(zero_distance_index, distances)`:
`0 <= zero_distance_index < len(distances)`. -/
def _check_dependency_distances (zero_distance_index : Int)
    (distances : List Int) : Bool × String :=
  (decide (0 ≤ zero_distance_index ∧
      zero_distance_index < (distances.length : Int)),
    "zero distance index > len(distances)")

/-- The synthetic dependency violation appended by `_check_distances`:
`SpecViolation("Distances", "Distance dependency error", reason)`. -/
def depViol : SpecViolation :=
  ⟨"Distances", GValue.str "Distance dependency error",
    "zero distance index > len(distances)"⟩

/-- The anonymous `assert_items_count(x, 1, 200)` criterion registered for
`distances`. -/
def distancesCountCrit : CritFun := pureCrit fun d =>
  match d with
  | GValue.list xs => assert_items_count xs 1 200
  | _ => (false, "Type error: expected tuple or list")

/-- The element loop of `_check_distances`: validate each distance at
`path/distances/[i]`. -/
def distanceElemLoop (ds : List Int) (path : String) (i : Nat)
    (violations : List SpecViolation) : List SpecViolation :=
  match ds with
  | [] => violations
  | d :: rest =>
      distanceElemLoop rest path (i + 1)
        (SpecCriterion.validate _check_one_distance (GValue.int d)
          (pathJoin (pathJoin path "distances") ("[" ++ toString i ++ "]"))
          violations).1

/-- The `distances_violations` list collected by `_check_distances`, in
order: the `c_zero_distance_idx` field check, then (on failure) the
synthetic dependency violation, then the `distances` items-count check, then
the per-element range checks. -/
def distancesViolations (idx : Int) (ds : List Int) (path : String) :
    List SpecViolation :=
  let dv := (SpecCriterion.validate _check_c_zero_distance_idx (GValue.int idx)
    (pathJoin path "c_zero_distance_idx") []).1
  let dep := _check_dependency_distances idx ds
  let dv := if dep.1 then dv
    else dv ++ [⟨"Distances", GValue.str "Distance dependency error", dep.2⟩]
  let dv := (SpecCriterion.validate distancesCountCrit
    (GValue.list (ds.map GValue.int)) (pathJoin path "distances") dv).1
  distanceElemLoop ds path 0 dv

/-- `_check_distances(profile, path, violations)`.  The source reads
`profile["c_zero_distance_idx"]` and `profile["distances"]`; they are passed
here directly (both are scaled integers / integer lists in the payload). -/
def _check_distances (idx : Int) (ds : List Int) (path : String)
    (violations : List SpecViolation) : List SpecViolation × Bool × String :=
  let dv := distancesViolations idx ds path
  if dv.length ≤ 11 then (violations ++ dv, true, "")
  else
    (violations ++ [⟨pathJoin path "distances",
      GValue.str ("Too many errors in " ++ pathJoin path "distances"),
      "More than 10 errors found, listing all is omitted"⟩], true, "")

/-- The anonymous `assert_items_count(x, 1, max)` criterion registered for
`coef_rows` (max 5 for the standard tags, 200 for the custom tag). -/
def coefRowsCountCrit (max_count : Nat) : CritFun := pureCrit fun d =>
  match d with
  | GValue.list xs => assert_items_count xs 1 max_count
  | _ => (false, "Type error: expected tuple or list")

/-- The validator registered by `_check_coef_rows` when
`bc_type in ['G7', 'G1']`. -/
def stdCoefCriteria : List (String × CritFun) :=
  [("~", passCrit), ("coef_rows", coefRowsCountCrit 5),
    ("bc_cd", _check_bc_value), ("mv", _check_mv_value)]

/-- The validator registered by `_check_coef_rows` when
`bc_type == 'CUSTOM'`. -/
def customCoefCriteria : List (String × CritFun) :=
  [("~", passCrit), ("coef_rows", coefRowsCountCrit 200),
    ("bc_cd", _check_cd_value), ("mv", _check_ma_value)]

/-- The `coef_rows_violations` list collected by `_check_coef_rows`: the
`bc_type` choice check (whose violation is recorded at the profile `path`),
then — only when the tag is recognized — the walk of the profile with the
tag-selected criteria. -/
def coefRowsViolations (profile : List (String × GValue)) (path : String) :
    List SpecViolation :=
  let bc_type := (alookup profile "bc_type").getD GValue.null
  let r := SpecCriterion.validate _check_bc_type bc_type path []
  let crv := r.1
  let is_valid := r.2.1
  if is_valid then
      if GValue.beq bc_type (GValue.str "G7")
          || GValue.beq bc_type (GValue.str "G1") then
        svValidate stdCoefCriteria (GValue.dict profile) path crv
      else if GValue.beq bc_type (GValue.str "CUSTOM") then
        svValidate customCoefCriteria (GValue.dict profile) path crv
      else
        -- this branch is unreachable: `is_valid` already means the tag is
        -- one of G7 / G1 / CUSTOM (the message of the source elides the
        -- quoted tag value here)
        svValidate [("~", passCrit)] (GValue.dict profile) path
          (crv ++ [⟨pathJoin path "coef_rows",
            GValue.str "Validation skipped for coef_rows",
            "Unsupported bc_type"⟩])
  else crv

/-- `_check_coef_rows(profile, path, violations)` over the generic profile
dict: collect `coef_rows_violations`, then extend `violations` with them,
or with a single too-many-errors summary when more than 12 were found. -/
def _check_coef_rows (profile : List (String × GValue)) (path : String)
    (violations : List SpecViolation) : List SpecViolation × Bool × String :=
  let crv := coefRowsViolations profile path
  if crv.length ≤ 12 then (violations ++ crv, true, "")
  else
    (violations ++ [⟨pathJoin path "coef_rows",
      GValue.str ("Too many errors in " ++ pathJoin path "coef_rows"),
      "More than 12 errors found, listing all is omitted"⟩], true, "")

/-- The generic-dict shape of a profile as far as `_check_coef_rows` looks
at it: a `bc_type` discriminator and a `coef_rows` list of
`{bc_cd, mv}` rows. -/
def coefRowDict (r : Int × Int) : GValue :=
  GValue.dict [("bc_cd", GValue.int r.1), ("mv", GValue.int r.2)]

def mkCoefProfile (bc_type : GValue) (rows : List (Int × Int)) :
    List (String × GValue) :=
  [("bc_type", bc_type),
    ("coef_rows", GValue.list (rows.map coefRowDict))]

end SpecV

namespace Yup

/-! Embedding of the `yup` object-schema engine (`yup/schema.py`,
`yup/obj_schema.py`): the validation engine with `abort_early` (fail-fast)
versus collect-all semantics.  Callable locale messages are embedded as
their formatted text. -/

/-- `validation_error.Constraint`: `{type, args, message}`.  `args` is
rendered to a string (`required` stores the field path, `array` stores the
object path, the numeric tests store their limit). -/
structure Constraint where
  ctype : String
  args : String
  message : String

/-- `validation_error.ValidationError`: a constraint, a path (with one
leading `.` stripped by `__init__`) and nested sub-errors. -/
inductive YError where
  | mk (constraint : Constraint) (path : String) (errors : List YError)

def YError.constraint : YError → Constraint
  | .mk c _ _ => c

def YError.path : YError → String
  | .mk _ p _ => p

def YError.errors : YError → List YError
  | .mk _ _ es => es

/-- `re.sub(r"^\.", "", path)` in `ValidationError.__init__`. -/
def stripLeadingDot (s : String) : String :=
  match s.data with
  | ch :: rest => if ch = '.' then String.mk rest else s
  | [] => s

/-- Build a `ValidationError` the way `__init__` does. -/
def mkYError (c : Constraint) (path : String) (errors : List YError) :
    YError :=
  .mk c (stripLeadingDot path) errors

/-- `util/concat_path.concat_path(path, item)` for a string item. -/
def concat_path (path item : String) : String :=
  if path = "" then item else path ++ "." ++ item

/-- The `_type` slot of a schema: `Any` for plain `Schema`, `dict` for
`ObjSchema`, `str` for `StringSchema`, `(float, int)` for `NumberSchema`,
`list` for `ArraySchema`. -/
inductive YType where
  | anyT | strT | numT | dictT | listT

/-- `isinstance(value, type_)` for the generic kinds above. -/
def typeMatches : YType → GValue → Bool
  | .anyT, _ => true
  | .strT, GValue.str _ => true
  | .numT, GValue.int _ => true
  | .numT, GValue.bool _ => true   -- Python bool is an int subtype
  | .dictT, GValue.dict _ => true
  | .listT, GValue.list _ => true
  | _, _ => false

/-- The per-node configuration shared by every `Schema`
(`_type`, `_optional`, `_required`, `_nullability`, `_not_nullable`,
`_transforms`, `_validators`). -/
structure SchemaCfg where
  ttag : YType
  optional : Bool := true
  requiredMsg : String := "Field is required"
  nullability : Bool := false
  notNullableMsg : String := "Value cannot be null"
  transforms : List (GValue → GValue) := []
  validators : List (GValue → Option Constraint) := []

/-- A schema node: plain/scalar `Schema` or `ObjSchema` with its `shape`
fields (insertion order preserved). -/
inductive YSchema where
  | scalar (cfg : SchemaCfg)
  | obj (cfg : SchemaCfg) (fields : List (String × YSchema))

def YSchema.cfg : YSchema → SchemaCfg
  | .scalar c => c
  | .obj c _ => c

/-- Run `_validators` in order; the first raising validator wins
(`Schema.validate` does not consult `abort_early` here). -/
def runValidators : List (GValue → Option Constraint) → GValue →
    Option Constraint
  | [], _ => none
  | v :: rest, x =>
      match v x with
      | some c => some c
      | none => runValidators rest x

/-- The body of `Schema.validate`'s `try` block: nullability check, type
check, transforms (each applied to the original `value`, as in the source),
then validators.  Returns the constraint of the first failure. -/
def scalarChecks (cfg : SchemaCfg) (value : GValue) : Option Constraint :=
  match value with
  | GValue.null =>
      if cfg.nullability then none
      else some ⟨"nullable", "", cfg.notNullableMsg⟩
  | _ =>
      if typeMatches cfg.ttag value then
        let transformed := cfg.transforms.foldl (fun _ t => t value) value
        runValidators cfg.validators transformed
      else some ⟨"type", "(expected, actual)", "Value is not of expected type"⟩

/-- `GValue.dict` contents (the `value[k]` accesses of `_validate_shape`;
only reached after the `dict` type check succeeded). -/
def GValue.asDict : GValue → List (String × GValue)
  | GValue.dict kvs => kvs
  | _ => []

mutual
/-- `Schema.validate` / `ObjSchema.validate(value, abort_early, path)`:
scalar checks (re-raised at `path`), then for object schemas
`_validate_shape`. -/
def yvalidate (s : YSchema) (value : GValue) (abortEarly : Bool)
    (path : String) : Except YError Unit :=
  match s with
  | .scalar cfg =>
      match scalarChecks cfg value with
      | some c => .error (mkYError c path [])
      | none => .ok ()
  | .obj cfg fields =>
      match scalarChecks cfg value with
      | some c => .error (mkYError c path [])
      | none => yvalidateShape fields (GValue.asDict value) abortEarly path []
termination_by structural s

/-- `ObjSchema._validate_shape`: walk the declared fields in order.  A
missing required key or a failing field value is re-raised immediately
under `abort_early`, otherwise appended to `errs`; a non-empty `errs` is
wrapped in one aggregate `array` / `invalid object` error at `path`. -/
def yvalidateShape (fields : List (String × YSchema))
    (kvs : List (String × GValue)) (abortEarly : Bool) (path : String)
    (errs : List YError) : Except YError Unit :=
  match fields with
  | [] =>
      if errs.isEmpty then .ok ()
      else .error (mkYError ⟨"array", path, "invalid object"⟩ path errs)
  | (k, f) :: rest =>
      let path_ := concat_path path k
      let attempt : Except YError Unit :=
        if !f.cfg.optional && (alookup kvs k).isNone then
          .error (mkYError ⟨"required", path_, f.cfg.requiredMsg⟩ path_ [])
        else
          match alookup kvs k with
          | some v => yvalidate f v abortEarly path_
          | none => .ok ()
      match attempt with
      | .ok _ => yvalidateShape rest kvs abortEarly path errs
      | .error e =>
          if abortEarly then .error (mkYError e.constraint path_ [])
          else yvalidateShape rest kvs abortEarly path (errs ++ [e])
termination_by structural fields
end

/-- One field's outcome inside `_validate_shape` (the body of its `try`
block). -/
def shapeFieldAttempt (kvs : List (String × GValue)) (abortEarly : Bool)
    (path : String) (kf : String × YSchema) : Except YError Unit :=
  let path_ := concat_path path kf.1
  if !kf.2.cfg.optional && (alookup kvs kf.1).isNone then
    .error (mkYError ⟨"required", path_, kf.2.cfg.requiredMsg⟩ path_ [])
  else
    match alookup kvs kf.1 with
    | some v => yvalidate kf.2 v abortEarly path_
    | none => .ok ()

/-- The error of an `Except` outcome, if any. -/
def errOf : Except YError Unit → Option YError
  | .ok _ => none
  | .error e => some e

/-- The failing fields of a shape walk, with their keys, in declaration
order. -/
def shapeErrs (fields : List (String × YSchema))
    (kvs : List (String × GValue)) (abortEarly : Bool) (path : String) :
    List (String × YError) :=
  fields.filterMap fun kf =>
    (errOf (shapeFieldAttempt kvs abortEarly path kf)).map fun e => (kf.1, e)

/-- A `ge(n)`-style validator, as installed by `NumberSchema.ge`. -/
def demoGe (n : Int) : GValue → Option Constraint
  | GValue.int m =>
      if m < n then some ⟨"ge", "", "Value must be greater or equal"⟩
      else none
  | _ => none

/-- A number field carrying one `ge(n)` validator. -/
def demoField (n : Int) : YSchema :=
  YSchema.scalar { ttag := YType.numT, validators := [demoGe n] }

/-- Three independent fields, each demanding a value of at least 100. -/
def demoFields : List (String × YSchema) :=
  [("a", demoField 100), ("b", demoField 100), ("c", demoField 100)]

/-- A record violating all three fields. -/
def demoKvs : List (String × GValue) :=
  [("a", GValue.int 10), ("b", GValue.int 11), ("c", GValue.int 12)]

end Yup

namespace Rec

/-! Embedding of the recovery registry and pipeline
(`recover/recover.py`, `recover/recover_process.py`, and the
`recover_payload` driver of `__main__.py`).  The payload carries the
profile fields touched by the registry entries the claims exercise; each
fix function mutates the payload exactly as its source counterpart. -/

/-- The protobuf `Payload.profile` fields used by the embedded recovery
registries (scaled integers). -/
structure Profile where
  zero_x : Int := 0
  zero_y : Int := 0
  c_muzzle_velocity : Int := 0
  c_zero_distance_idx : Int := 0
  c_zero_air_pressure : Int := 0
  c_zero_air_humidity : Int := 0

/-- `profedit_pb2.Payload`. -/
structure Payload where
  profile : Profile

/-- `exceptions.Violation`: path, offending value, reason. -/
structure Violation where
  path : String
  value : String
  reason : String

/-- A node reachable by attribute walking from a payload
(`get_value_by_violation` walks `getattr` steps). -/
inductive PNode where
  | payload (p : Payload)
  | profile (pr : Profile)
  | val (g : GValue)

/-- `getattr(node, name)` for the embedded payload shape (`hasattr`
fails on anything else). -/
def PNode.getattr : PNode → String → Option PNode
  | .payload p, "profile" => some (.profile p.profile)
  | .profile pr, "zero_x" => some (.val (GValue.int pr.zero_x))
  | .profile pr, "zero_y" => some (.val (GValue.int pr.zero_y))
  | .profile pr, "c_muzzle_velocity" =>
      some (.val (GValue.int pr.c_muzzle_velocity))
  | .profile pr, "c_zero_distance_idx" =>
      some (.val (GValue.int pr.c_zero_distance_idx))
  | .profile pr, "c_zero_air_pressure" =>
      some (.val (GValue.int pr.c_zero_air_pressure))
  | .profile pr, "c_zero_air_humidity" =>
      some (.val (GValue.int pr.c_zero_air_humidity))
  | _, _ => none

/-- The walk of `Recover.get_value_by_violation`: follow each path
component that is an attribute, silently keep the current node otherwise,
and return (a deep copy of) the final node. -/
def walkPath : PNode → List String → PNode
  | node, [] => node
  | node, c :: rest =>
      match node.getattr c with
      | some n => walkPath n rest
      | none => walkPath node rest

/-- Split a string on a separator character (Python `str.split`). -/
def splitAux (sep : Char) : List Char → List Char → List String
  | [], acc => [String.mk acc.reverse]
  | c :: rest, acc =>
      if c = sep then String.mk acc.reverse :: splitAux sep rest []
      else splitAux sep rest (c :: acc)

/-- `RecoverProto.split_path`: `path.split('.')`. -/
def protoSplitPath (path : String) : List String := splitAux '.' path.data []

/-- `RecoverSpec.split_path`: `Path(path).as_posix().split("/")[1:]`. -/
def specSplitPath (path : String) : List String :=
  (splitAux '/' path.data []).drop 1

/-- `RecoverResult`: whether a fix ran, the violation path, and the value
at that path before/after (absent when skipped). -/
structure RecoverResult where
  recovered : Bool
  path : String
  old_value : Option PNode := none
  new_value : Option PNode := none

/-- A recovery tier: its path-keyed fix table and its path-splitting rule
(`RecoverSpec` / `RecoverProto`). -/
structure Recover where
  recover_funcs : List (String × (Payload → Payload))
  split_path : String → List String

/-- `Recover.recover_one(payload, violation)`: when a fix is registered for
the violation's path, snapshot the value there, run the fix, re-read, and
report `recovered=True` with old/new; otherwise report `recovered=False`
and leave the payload untouched. -/
def Recover.recover_one (r : Recover) (payload : Payload)
    (violation : Violation) : Payload × RecoverResult :=
  match alookup r.recover_funcs violation.path with
  | some f =>
      let old_value := walkPath (.payload payload) (r.split_path violation.path)
      let payload := f payload
      let new_value := walkPath (.payload payload) (r.split_path violation.path)
      (payload, ⟨true, violation.path, some old_value, some new_value⟩)
  | none => (payload, ⟨false, violation.path, none, none⟩)

/-- `Recover.recover(payload, violations)`: process the violations in
order, one `RecoverResult` each. -/
def Recover.recover (r : Recover) (payload : Payload) :
    List Violation → Payload × List RecoverResult
  | [] => (payload, [])
  | v :: rest =>
      let pr := r.recover_one payload v
      let prs := Recover.recover r pr.1 rest
      (prs.1, pr.2 :: prs.2)

/-- `_recover_spec_zero_x` / `_recover_proto_zero_x`. -/
def _recover_zero_x (payload : Payload) : Payload :=
  { payload with profile := { payload.profile with zero_x := 0 } }

/-- `_recover_spec_zero_y` / `_recover_proto_zero_y`. -/
def _recover_zero_y (payload : Payload) : Payload :=
  { payload with profile := { payload.profile with zero_y := 0 } }

/-- `_recover_spec_c_muzzle_velocity` / `_recover_proto_c_muzzle_velocity`. -/
def _recover_c_muzzle_velocity (payload : Payload) : Payload :=
  { payload with profile := { payload.profile with c_muzzle_velocity := 8000 } }

/-- `_recover_spec_c_zero_distance_idx` / proto variant. -/
def _recover_c_zero_distance_idx (payload : Payload) : Payload :=
  { payload with profile := { payload.profile with c_zero_distance_idx := 0 } }

/-- `_recover_spec_c_zero_air_pressure` / proto variant. -/
def _recover_c_zero_air_pressure (payload : Payload) : Payload :=
  { payload with profile := { payload.profile with c_zero_air_pressure := 10000 } }

/-- `_recover_spec_c_zero_air_humidity`: the source assigns
`payload.profile.c_zero_air_pressure = 0` (not the humidity field). -/
def _recover_spec_c_zero_air_humidity (payload : Payload) : Payload :=
  { payload with profile := { payload.profile with c_zero_air_pressure := 0 } }

/-- `_recover_proto_c_zero_air_humidity`: identical body — it also assigns
`payload.profile.c_zero_air_pressure = 0`. -/
def _recover_proto_c_zero_air_humidity (payload : Payload) : Payload :=
  { payload with profile := { payload.profile with c_zero_air_pressure := 0 } }

/-- The `recover_spec` registry (the entries over the embedded profile
fields, registered with `~/`-style paths as in the source). -/
def recover_spec : Recover :=
  ⟨[("~/profile/zero_x", _recover_zero_x),
    ("~/profile/zero_y", _recover_zero_y),
    ("~/profile/c_muzzle_velocity", _recover_c_muzzle_velocity),
    ("~/profile/c_zero_distance_idx", _recover_c_zero_distance_idx),
    ("~/profile/c_zero_air_pressure", _recover_c_zero_air_pressure),
    ("~/profile/c_zero_air_humidity", _recover_spec_c_zero_air_humidity)],
    specSplitPath⟩

/-- The `recover_proto` registry (the entries over the embedded profile
fields, registered with dotted paths as in the source). -/
def recover_proto : Recover :=
  ⟨[("profile.zero_x", _recover_zero_x),
    ("profile.zero_y", _recover_zero_y),
    ("profile.c_muzzle_velocity", _recover_c_muzzle_velocity),
    ("profile.c_zero_distance_idx", _recover_c_zero_distance_idx),
    ("profile.c_zero_air_pressure", _recover_c_zero_air_pressure),
    ("profile.c_zero_air_humidity", _recover_proto_c_zero_air_humidity)],
    protoSplitPath⟩

/-- The violation lists carried by an `A7PValidationError` (its payload is
the payload that was being validated). -/
structure Violations where
  violations : List Violation := []
  spec_violations : List Violation := []
  proto_violations : List Violation := []

/-- `a7p.validate` as the pipeline sees it: given a fail-fast flag and a
payload, either no error or the violation lists. -/
def ValidateFn : Type := Bool → Payload → Option Violations

/-- The outcome of a recovery run: final payload, the `RecoverResult`s of
each tier, and whether the final validation was clean. -/
structure PipelineOutcome where
  payload : Payload
  spec_results : List RecoverResult := []
  proto_results : List RecoverResult := []
  recovered : Bool := true

/-- `recover_process.attempt_to_recover(validation_error)`: spec-tier
recovery over the spec violations, re-validate (fail-fast); if still
failing, proto-tier recovery over the new proto violations and a final
collect-all validation that decides success. -/
def attempt_to_recover (validateF : ValidateFn) (payload : Payload)
    (spec_violations : List Violation) : PipelineOutcome :=
  let r1 := recover_spec.recover payload spec_violations
  match validateF true r1.1 with
  | none => ⟨r1.1, r1.2, [], true⟩
  | some vs2 =>
      let r2 := recover_proto.recover r1.1 vs2.proto_violations
      match validateF false r2.1 with
      | none => ⟨r2.1, r1.2, r2.2, true⟩
      | some _ => ⟨r2.1, r1.2, r2.2, false⟩

/-- The recovery pipeline as driven by `__main__.process_file` +
`recover_payload`: validate (collect-all — `--recover` forces
`verbose=True`, hence `fail_fast=False`); with no violations nothing runs;
otherwise `attempt_to_recover` over the error's spec violations. -/
def recoverPipeline (validateF : ValidateFn) (p : Payload) :
    PipelineOutcome :=
  match validateF false p with
  | none => ⟨p, [], [], true⟩
  | some vs => attempt_to_recover validateF p vs.spec_violations

end Rec

namespace SpecV

/-! Supporting lemmas about the spec-validator embedding. -/

theorem blt_false_iff (a b : ℚ) : (!Rat.blt b a) = true ↔ a ≤ b := by
  rw [Bool.not_eq_true', ← not_lt (a := b) (b := a)]
  constructor
  · intro h hlt
    simp [show Rat.blt b a = true from hlt] at h
  · intro h
    by_contra hb
    exact h (by simpa using Bool.of_not_eq_false hb)

theorem assert_float_range_iff (v : Int) (mn mx : ℚ) (d : Int) :
    (assert_float_range v mn mx d).1 = true ↔
      mn ≤ (v : ℚ) / (d : ℚ) ∧ (v : ℚ) / (d : ℚ) ≤ mx := by
  rw [show (assert_float_range v mn mx d).1 =
    (!Rat.blt (Rat.divInt v d) mn && !Rat.blt mx (Rat.divInt v d)) from rfl]
  rw [Bool.and_eq_true, blt_false_iff, blt_false_iff, Rat.divInt_eq_div]

theorem critValidate_append (f : CritFun) (d : GValue) (p : String)
    (vs : List SpecViolation) :
    (SpecCriterion.validate f d p vs).1 =
      vs ++ (SpecCriterion.validate f d p []).1 := by
  rcases h : f d p with ⟨extra, valid, reason⟩
  cases valid <;> simp [SpecCriterion.validate, h]

theorem critValidate_pure (f : GValue → Bool × String) (d : GValue)
    (p : String) (vs : List SpecViolation) :
    (SpecCriterion.validate (pureCrit f) d p vs).1 =
      vs ++ if (f d).1 then [] else [⟨p, d, (f d).2⟩] := by
  rcases h : f d with ⟨valid, reason⟩
  cases valid <;> simp [SpecCriterion.validate, pureCrit, h]

theorem elemLoop_append (ds : List Int) (path : String) (i : Nat)
    (vs : List SpecViolation) :
    distanceElemLoop ds path i vs = vs ++ distanceElemLoop ds path i [] := by
  induction ds generalizing i vs with
  | nil => simp [distanceElemLoop]
  | cons d rest ih =>
      conv_rhs => rw [distanceElemLoop, ih]
      rw [distanceElemLoop, critValidate_append, ih, List.append_assoc]

theorem elemLoop_values (ds : List Int) (path : String) (i : Nat) :
    ∀ w ∈ distanceElemLoop ds path i [], ∃ n, w.value = GValue.int n := by
  induction ds generalizing i with
  | nil => simp [distanceElemLoop]
  | cons d rest ih =>
      intro w hw
      rw [distanceElemLoop, elemLoop_append] at hw
      rcases List.mem_append.1 hw with h | h
      · simp only [_check_one_distance, critValidate_pure,
          List.nil_append] at h
        split at h
        · simp at h
        · rcases List.mem_singleton.1 h with rfl
          exact ⟨d, rfl⟩
      · exact ih (i + 1) w h

theorem ite_append_singleton {α : Type} (c : Prop) [Decidable c]
    (xs : List α) (y : α) :
    (if c then xs else xs ++ [y]) = xs ++ (if c then [] else [y]) := by
  split <;> simp

/-- The segments of `distances_violations`, in the order the source appends
them: idx field check, dependency violation, items-count check, element
checks. -/
theorem distancesViolations_eq (idx : Int) (ds : List Int) (path : String) :
    distancesViolations idx ds path =
      (if (assert_int_range idx 0 200).1 = true then []
        else [⟨pathJoin path "c_zero_distance_idx", GValue.int idx,
          (assert_int_range idx 0 200).2⟩])
      ++ (if (_check_dependency_distances idx ds).1 = true then []
        else [depViol])
      ++ (if (assert_items_count (ds.map GValue.int) 1 200).1 = true then []
        else [⟨pathJoin path "distances", GValue.list (ds.map GValue.int),
          (assert_items_count (ds.map GValue.int) 1 200).2⟩])
      ++ distanceElemLoop ds path 0 [] := by
  unfold distancesViolations
  rw [elemLoop_append, critValidate_append]
  simp only [_check_c_zero_distance_idx, distancesCountCrit,
    critValidate_pure, List.nil_append, depViol, _check_dependency_distances,
    ite_append_singleton, List.append_assoc]

theorem dep_check_true_iff (idx : Int) (ds : List Int) :
    (_check_dependency_distances idx ds).1 = true ↔
      0 ≤ idx ∧ idx < (ds.length : Int) := by
  simp [_check_dependency_distances]

theorem depViol_mem_distancesViolations (idx : Int) (ds : List Int)
    (path : String) :
    depViol ∈ distancesViolations idx ds path ↔
      ¬(0 ≤ idx ∧ idx < (ds.length : Int)) := by
  have hA : depViol ∉ (if (assert_int_range idx 0 200).1 = true then []
      else [(⟨pathJoin path "c_zero_distance_idx", GValue.int idx,
        (assert_int_range idx 0 200).2⟩ : SpecViolation)]) := by
    split <;> simp [depViol]
  have hC : depViol ∉ (if (assert_items_count (ds.map GValue.int) 1 200).1 =
      true then []
      else [(⟨pathJoin path "distances", GValue.list (ds.map GValue.int),
        (assert_items_count (ds.map GValue.int) 1 200).2⟩ : SpecViolation)]) := by
    split <;> simp [depViol]
  have hE : depViol ∉ distanceElemLoop ds path 0 [] := by
    intro h
    rcases elemLoop_values ds path 0 depViol h with ⟨n, hn⟩
    simp [depViol] at hn
  rw [distancesViolations_eq]
  constructor
  · intro h
    rcases List.mem_append.1 h with h | hE'
    · rcases List.mem_append.1 h with h | hC'
      · rcases List.mem_append.1 h with hA' | hD
        · exact absurd hA' hA
        · intro hdep
          rw [if_pos ((dep_check_true_iff idx ds).2 hdep)] at hD
          simp at hD
      · exact absurd hC' hC
    · exact absurd hE' hE
  · intro hdep
    refine List.mem_append.2 (Or.inl (List.mem_append.2 (Or.inl
      (List.mem_append.2 (Or.inr ?_)))))
    rw [if_neg (fun h => hdep ((dep_check_true_iff idx ds).1 h))]
    exact List.mem_singleton.2 rfl

/-- C1: for a `distances` list of length N and `c_zero_distance_idx = i`,
the index-into-array dependency rule passes iff `0 ≤ i < N`; `i = N` and
`i = -1` fail, `i = N - 1` passes (for non-empty `distances`); and the
profile validation of `_check_distances` collects the synthetic dependency
violation exactly when the rule fails. -/
theorem c1_zero_distance_idx_dependency (idx : Int) (ds : List Int)
    (path : String) :
    ((_check_dependency_distances idx ds).1 = true ↔
      0 ≤ idx ∧ idx < (ds.length : Int))
    ∧ (_check_dependency_distances (ds.length : Int) ds).1 = false
    ∧ (_check_dependency_distances (-1) ds).1 = false
    ∧ (1 ≤ ds.length →
        (_check_dependency_distances ((ds.length : Int) - 1) ds).1 = true)
    ∧ (depViol ∈ distancesViolations idx ds path ↔
        ¬(0 ≤ idx ∧ idx < (ds.length : Int))) := by
  refine ⟨dep_check_true_iff idx ds, ?_, ?_, ?_,
    depViol_mem_distancesViolations idx ds path⟩
  · simp [_check_dependency_distances]
  · simp [_check_dependency_distances]
  · intro h
    rw [dep_check_true_iff]
    omega

/-- C1 witness at `distances = [100, 200, 300]`, `i = 5` (out of bounds)
and `i = N - 1 = 2` (in bounds). -/
theorem c1_witness :
    (1 ≤ [(100 : Int), 200, 300].length →
      (_check_dependency_distances (([(100 : Int), 200, 300].length : Int) - 1)
        [100, 200, 300]).1 = true)
    ∧ (depViol ∈ distancesViolations 5 [100, 200, 300] "~/profile" ↔
        ¬(0 ≤ (5 : Int) ∧ (5 : Int) < (([(100 : Int), 200, 300].length) : Int))) :=
  ⟨(c1_zero_distance_idx_dependency 5 [100, 200, 300] "~/profile").2.2.2.1,
    (c1_zero_distance_idx_dependency 5 [100, 200, 300] "~/profile").2.2.2.2⟩

/-- C2: a stored integer `v` for a numeric field with closed range
`[mn, mx]` and divisor `d` validates iff `mn ≤ v/d ≤ mx`; the boundary
stored values `mn*d` and `mx*d` are accepted and `mn*d - 1`, `mx*d + 1`
are rejected; `_check_c_muzzle_velocity` is this check at range
`[10.0, 3000.0]` with divisor 10. -/
theorem c2_scaled_range_boundaries (mn mx : ℚ) (d a b v : Int)
    (hd : 0 < d) (hmm : mn ≤ mx)
    (ha : (a : ℚ) = mn * d) (hb : (b : ℚ) = mx * d) :
    ((assert_float_range v mn mx d).1 = true ↔
        mn ≤ (v : ℚ) / (d : ℚ) ∧ (v : ℚ) / (d : ℚ) ≤ mx)
    ∧ (assert_float_range a mn mx d).1 = true
    ∧ (assert_float_range b mn mx d).1 = true
    ∧ (assert_float_range (a - 1) mn mx d).1 = false
    ∧ (assert_float_range (b + 1) mn mx d).1 = false
    ∧ _check_c_muzzle_velocity (GValue.int v) "~/profile/c_muzzle_velocity" =
        ([], assert_float_range v 10 3000 10) := by
  have hd' : (0 : ℚ) < (d : ℚ) := by exact_mod_cast hd
  have hdne : (d : ℚ) ≠ 0 := ne_of_gt hd'
  refine ⟨assert_float_range_iff v mn mx d, ?_, ?_, ?_, ?_, rfl⟩
  · rw [assert_float_range_iff, ha, mul_div_assoc, div_self hdne, mul_one]
    exact ⟨le_refl mn, hmm⟩
  · rw [assert_float_range_iff, hb, mul_div_assoc, div_self hdne, mul_one]
    exact ⟨hmm, le_refl mx⟩
  · rw [← Bool.not_eq_true, assert_float_range_iff]
    push_cast
    rw [ha]
    intro hcon
    have := hcon.1
    rw [le_div_iff₀ hd'] at this
    nlinarith
  · rw [← Bool.not_eq_true, assert_float_range_iff]
    push_cast
    rw [hb]
    intro hcon
    have := hcon.2
    rw [div_le_iff₀ hd'] at this
    nlinarith

/-- C2 witness at the muzzle-velocity field: range `[10.0, 3000.0]`,
divisor 10, stored boundaries 100 and 30000. -/
theorem c2_witness :
    (assert_float_range 100 10 3000 10).1 = true
    ∧ (assert_float_range 30000 10 3000 10).1 = true
    ∧ (assert_float_range (100 - 1) 10 3000 10).1 = false
    ∧ (assert_float_range (30000 + 1) 10 3000 10).1 = false :=
  have h := c2_scaled_range_boundaries 10 3000 10 100 30000 700
    (by norm_num) (by norm_num) (by norm_num) (by norm_num)
  ⟨h.2.1, h.2.2.1, h.2.2.2.1, h.2.2.2.2.1⟩

/-- C9: the collected violations of a collection are propagated unchanged
when their number is at or below the cap (11 for `distances`, 12 for
`coef_rows`), and are replaced by exactly one too-many-errors summary
violation when the number exceeds the cap. -/
theorem c9_too_many_errors_cap (idx : Int) (ds : List Int)
    (profile : List (String × GValue)) (path : String)
    (violations : List SpecViolation) :
    (((distancesViolations idx ds path).length ≤ 11 →
        _check_distances idx ds path violations =
          (violations ++ distancesViolations idx ds path, true, ""))
      ∧ (11 < (distancesViolations idx ds path).length →
        _check_distances idx ds path violations =
          (violations ++ [⟨pathJoin path "distances",
            GValue.str ("Too many errors in " ++ pathJoin path "distances"),
            "More than 10 errors found, listing all is omitted"⟩], true, "")))
    ∧ (((coefRowsViolations profile path).length ≤ 12 →
        _check_coef_rows profile path violations =
          (violations ++ coefRowsViolations profile path, true, ""))
      ∧ (12 < (coefRowsViolations profile path).length →
        _check_coef_rows profile path violations =
          (violations ++ [⟨pathJoin path "coef_rows",
            GValue.str ("Too many errors in " ++ pathJoin path "coef_rows"),
            "More than 12 errors found, listing all is omitted"⟩], true, ""))) := by
  refine ⟨⟨fun h => ?_, fun h => ?_⟩, fun h => ?_, fun h => ?_⟩ <;>
    · first
      | (rw [_check_distances, if_pos h])
      | (rw [_check_distances, if_neg (by omega)])
      | (rw [_check_coef_rows, if_pos h])
      | (rw [_check_coef_rows, if_neg (by omega)])

/-- C9 witness: 13 out-of-range distances (13 element violations plus the
dependency/idx results exceed the cap) produce one summary violation; a
3-element list with one bad entry propagates everything. -/
theorem c9_witness :
    (11 < (distancesViolations 0
        [0, 0, 0, 0, 0, 0, 0, 0, 0, 0, 0, 0, 0] "~/profile").length
      ∧ _check_distances 0 [0, 0, 0, 0, 0, 0, 0, 0, 0, 0, 0, 0, 0]
          "~/profile" [] =
        ([⟨pathJoin "~/profile" "distances",
          GValue.str ("Too many errors in " ++ pathJoin "~/profile" "distances"),
          "More than 10 errors found, listing all is omitted"⟩], true, ""))
    ∧ ((distancesViolations 0 [100, 0, 300] "~/profile").length ≤ 11
      ∧ _check_distances 0 [100, 0, 300] "~/profile" [] =
        (distancesViolations 0 [100, 0, 300] "~/profile", true, "")) := by
  have h13 : 11 < (distancesViolations 0
      [0, 0, 0, 0, 0, 0, 0, 0, 0, 0, 0, 0, 0] "~/profile").length := by decide
  have h3 : (distancesViolations 0 [100, 0, 300] "~/profile").length ≤ 11 := by
    decide
  refine ⟨⟨h13, ?_⟩, h3, ?_⟩
  · simpa using (c9_too_many_errors_cap 0
      [0, 0, 0, 0, 0, 0, 0, 0, 0, 0, 0, 0, 0] [] "~/profile" []).1.2 h13
  · simpa using (c9_too_many_errors_cap 0 [100, 0, 300] [] "~/profile"
      []).1.1 h3

theorem critValidate_pure_valid (f : GValue → Bool × String) (d : GValue)
    (p : String) (vs : List SpecViolation) :
    (SpecCriterion.validate (pureCrit f) d p vs).2.1 = (f d).1 := by
  rcases h : f d with ⟨valid, reason⟩
  cases valid <;> simp [SpecCriterion.validate, pureCrit, h]

/-- C7 (amended): a `bc_type` that is none of the recognized tags is
reported as a single violation carrying the offending tag value, recorded
at the profile `path` (not at a `bc_type` sub-path), and `coef_rows`
validation is skipped entirely — no element-level violation is produced. -/
theorem c7_unrecognized_bc_type (bc : GValue) (rows : List (Int × Int))
    (path : String) (violations : List SpecViolation)
    (h7 : GValue.beq bc (GValue.str "G7") = false)
    (h1 : GValue.beq bc (GValue.str "G1") = false)
    (hC : GValue.beq bc (GValue.str "CUSTOM") = false) :
    coefRowsViolations (mkCoefProfile bc rows) path =
      [⟨path, bc, "expected one of [G7, G1, CUSTOM]"⟩]
    ∧ _check_coef_rows (mkCoefProfile bc rows) path violations =
      (violations ++ [⟨path, bc, "expected one of [G7, G1, CUSTOM]"⟩],
        true, "") := by
  have hlook : alookup (mkCoefProfile bc rows) "bc_type" = some bc := by
    simp [mkCoefProfile, alookup]
  have hchoice : (assert_choice bc
      [GValue.str "G7", GValue.str "G1", GValue.str "CUSTOM"]
      "[G7, G1, CUSTOM]").1 = false := by
    simp [assert_choice, h7, h1, hC]
  have hcrv : coefRowsViolations (mkCoefProfile bc rows) path =
      [⟨path, bc, "expected one of [G7, G1, CUSTOM]"⟩] := by
    unfold coefRowsViolations
    rw [hlook]
    simp only [Option.getD_some, _check_bc_type, critValidate_pure_valid,
      critValidate_pure, hchoice, Bool.false_eq_true, if_false,
      List.nil_append]
    simp [assert_choice]
  refine ⟨hcrv, ?_⟩
  rw [_check_coef_rows, hcrv]
  rfl

/-- C7 counterexample to the claim as stated: for the unrecognized tag
`"G3"` the single violation produced is recorded at the profile path
`~/profile`, which is not the `bc_type` path — the source builds the
`bc_type` criterion with `Path("bc_type")` but validates it at the profile
path. -/
theorem c7_counterexample :
    ((coefRowsViolations (mkCoefProfile (GValue.str "G3")
        [(-50, 0), (0, 0), (0, 0), (0, 0), (0, 0), (0, 0)]) "~/profile").map
      (fun v => (v.path, v.value))) = [("~/profile", GValue.str "G3")]
    ∧ "~/profile" ≠ pathJoin "~/profile" "bc_type" := by
  refine ⟨rfl, by decide⟩

/-- C7 witness at the unrecognized tag `"G5"` with one coefficient row. -/
theorem c7_witness :
    coefRowsViolations (mkCoefProfile (GValue.str "G5") [(1000, 0)])
        "~/profile" =
      [⟨"~/profile", GValue.str "G5", "expected one of [G7, G1, CUSTOM]"⟩] :=
  (c7_unrecognized_bc_type (GValue.str "G5") [(1000, 0)] "~/profile" []
    rfl rfl rfl).1

theorem pathJoin_length (p k : String) :
    (pathJoin p k).length = p.length + 1 + k.length := by
  simp only [pathJoin, String.length_append]
  rfl

theorem elemLoop_paths (ds : List Int) (path : String) (i : Nat) :
    ∀ w ∈ distanceElemLoop ds path i [],
      ∃ s, w.path = pathJoin (pathJoin path "distances") s := by
  induction ds generalizing i with
  | nil => simp [distanceElemLoop]
  | cons d rest ih =>
      intro w hw
      rw [distanceElemLoop, elemLoop_append] at hw
      rcases List.mem_append.1 hw with h | h
      · simp only [_check_one_distance, critValidate_pure,
          List.nil_append] at h
        split at h
        · simp at h
        · rcases List.mem_singleton.1 h with rfl
          exact ⟨"[" ++ toString i ++ "]", rfl⟩
      · exact ih (i + 1) w h

/-- C8 (amended): when the dependency between `c_zero_distance_idx` and
`distances` fails, exactly one synthetic violation is appended, with path
the bare label `"Distances"` (neither the `c_zero_distance_idx` path nor
the `distances` path), and it is appended after the `c_zero_distance_idx`
field check but before the `distances` items-count and element checks. -/
theorem c8_dependency_violation_position (idx : Int) (ds : List Int)
    (path : String) (h : ¬(0 ≤ idx ∧ idx < (ds.length : Int))) :
    distancesViolations idx ds path =
      (if (assert_int_range idx 0 200).1 = true then []
        else [⟨pathJoin path "c_zero_distance_idx", GValue.int idx,
          (assert_int_range idx 0 200).2⟩])
      ++ [depViol]
      ++ ((if (assert_items_count (ds.map GValue.int) 1 200).1 = true then []
        else [⟨pathJoin path "distances", GValue.list (ds.map GValue.int),
          (assert_items_count (ds.map GValue.int) 1 200).2⟩])
      ++ distanceElemLoop ds path 0 [])
    ∧ depViol.path = "Distances"
    ∧ depViol.path ≠ pathJoin path "distances"
    ∧ depViol.path ≠ pathJoin path "c_zero_distance_idx"
    ∧ (distancesViolations idx ds path).countP
        (fun v => decide (v.path = "Distances")) = 1 := by
  have hpathD : depViol.path ≠ pathJoin path "distances" := by
    intro heq
    have hlen := congrArg String.length heq
    rw [pathJoin_length, show depViol.path.length = 9 from rfl,
      show "distances".length = 9 from rfl] at hlen
    omega
  have hpathI : depViol.path ≠ pathJoin path "c_zero_distance_idx" := by
    intro heq
    have hlen := congrArg String.length heq
    rw [pathJoin_length, show depViol.path.length = 9 from rfl,
      show "c_zero_distance_idx".length = 19 from rfl] at hlen
    omega
  have hdep : (_check_dependency_distances idx ds).1 = false := by
    rw [← Bool.not_eq_true, dep_check_true_iff]
    exact h
  have heq : distancesViolations idx ds path =
      (if (assert_int_range idx 0 200).1 = true then []
        else [⟨pathJoin path "c_zero_distance_idx", GValue.int idx,
          (assert_int_range idx 0 200).2⟩])
      ++ [depViol]
      ++ ((if (assert_items_count (ds.map GValue.int) 1 200).1 = true then []
        else [⟨pathJoin path "distances", GValue.list (ds.map GValue.int),
          (assert_items_count (ds.map GValue.int) 1 200).2⟩])
      ++ distanceElemLoop ds path 0 []) := by
    rw [distancesViolations_eq, hdep, if_neg Bool.false_ne_true,
      List.append_assoc]
  refine ⟨heq, rfl, hpathD, hpathI, ?_⟩
  rw [heq]
  rw [List.countP_append, List.countP_append, List.countP_append]
  have cA : (if (assert_int_range idx 0 200).1 = true then []
      else [(⟨pathJoin path "c_zero_distance_idx", GValue.int idx,
        (assert_int_range idx 0 200).2⟩ : SpecViolation)]).countP
      (fun v => decide (v.path = "Distances")) = 0 := by
    split
    · rfl
    · simp only [List.countP_cons, List.countP_nil]
      rw [decide_eq_false]
      · rfl
      · intro hc
        exact hpathI (hc ▸ rfl)
  have cC : (if (assert_items_count (ds.map GValue.int) 1 200).1 = true
      then []
      else [(⟨pathJoin path "distances", GValue.list (ds.map GValue.int),
        (assert_items_count (ds.map GValue.int) 1 200).2⟩ :
        SpecViolation)]).countP
      (fun v => decide (v.path = "Distances")) = 0 := by
    split
    · rfl
    · simp only [List.countP_cons, List.countP_nil]
      rw [decide_eq_false]
      · rfl
      · intro hc
        exact hpathD (hc ▸ rfl)
  have cE : (distanceElemLoop ds path 0 []).countP
      (fun v => decide (v.path = "Distances")) = 0 := by
    rw [List.countP_eq_zero]
    intro w hw hc
    rcases elemLoop_paths ds path 0 w hw with ⟨s, hs⟩
    rw [of_decide_eq_true hc] at hs
    have hlen := congrArg String.length hs
    rw [pathJoin_length, pathJoin_length, show "Distances".length = 9 from rfl,
      show "distances".length = 9 from rfl] at hlen
    omega
  rw [cA, cC, cE]
  rfl

/-- C8 witness at `i = 5`, `distances = [100, 200, 300]`: exactly one
violation with path `"Distances"` is collected. -/
theorem c8_witness :
    (distancesViolations 5 [100, 200, 300] "~/profile").countP
      (fun v => decide (v.path = "Distances")) = 1 :=
  (c8_dependency_violation_position 5 [100, 200, 300] "~/profile"
    (by decide)).2.2.2.2

/-- Walking one `{bc_cd, mv}` row whose two values pass the standard-tag
checks appends no violation. -/
theorem rowWalk_stdC (r : Int × Int) (rowpath : String)
    (vs : List SpecViolation)
    (hrow : get_criteria stdCoefCriteria rowpath = none)
    (hbcp : get_criteria stdCoefCriteria (pathJoin rowpath "bc_cd") =
      some _check_bc_value)
    (hmvp : get_criteria stdCoefCriteria (pathJoin rowpath "mv") =
      some _check_mv_value)
    (hb : (assert_float_range r.1 0 10 10000).1 = true)
    (hm : (assert_float_range r.2 0 3000 10).1 = true) :
    svValidate stdCoefCriteria (coefRowDict r) rowpath vs = vs := by
  simp only [coefRowDict, svValidate, svFields, hrow, hbcp, hmvp,
    _check_bc_value, _check_mv_value, critValidate_pure, hb, hm, if_true,
    List.append_nil]

/-- Walking one `{bc_cd, mv}` row whose two values pass the custom-tag
checks appends no violation. -/
theorem rowWalk_customC (r : Int × Int) (rowpath : String)
    (vs : List SpecViolation)
    (hrow : get_criteria customCoefCriteria rowpath = none)
    (hbcp : get_criteria customCoefCriteria (pathJoin rowpath "bc_cd") =
      some _check_cd_value)
    (hmvp : get_criteria customCoefCriteria (pathJoin rowpath "mv") =
      some _check_ma_value)
    (hb : (assert_float_range r.1 0 10 10000).1 = true)
    (hm : (assert_float_range r.2 0 10 10000).1 = true) :
    svValidate customCoefCriteria (coefRowDict r) rowpath vs = vs := by
  simp only [coefRowDict, svValidate, svFields, hrow, hbcp, hmvp,
    _check_cd_value, _check_ma_value, critValidate_pure, hb, hm, if_true,
    List.append_nil]

/-- C3: with six well-formed coefficient rows, the items-count rule for
`coef_rows` rejects length 6 under the standard tags `G1` and `G7`
(bound 1–5) and accepts it under `CUSTOM` (bound 1–200); length 0 is
rejected under every recognized tag. -/
theorem c3_coef_rows_discriminator (rows : List (Int × Int))
    (violations : List SpecViolation)
    (h6 : rows.length = 6)
    (hbc : ∀ r ∈ rows, (assert_float_range r.1 0 10 10000).1 = true)
    (hmvs : ∀ r ∈ rows, (assert_float_range r.2 0 3000 10).1 = true)
    (hmvc : ∀ r ∈ rows, (assert_float_range r.2 0 10 10000).1 = true) :
    coefRowsViolations (mkCoefProfile (GValue.str "G1") rows) "~/profile" =
      [⟨pathJoin "~/profile" "coef_rows", GValue.list (rows.map coefRowDict),
        "expected maximum 5 item(s) but got 6"⟩]
    ∧ coefRowsViolations (mkCoefProfile (GValue.str "G7") rows) "~/profile" =
      [⟨pathJoin "~/profile" "coef_rows", GValue.list (rows.map coefRowDict),
        "expected maximum 5 item(s) but got 6"⟩]
    ∧ coefRowsViolations (mkCoefProfile (GValue.str "CUSTOM") rows)
        "~/profile" = []
    ∧ _check_coef_rows (mkCoefProfile (GValue.str "CUSTOM") rows) "~/profile"
        violations = (violations, true, "")
    ∧ coefRowsViolations (mkCoefProfile (GValue.str "G1") []) "~/profile" =
      [⟨pathJoin "~/profile" "coef_rows", GValue.list [],
        "expected minimum 1 item(s) but got 0"⟩]
    ∧ coefRowsViolations (mkCoefProfile (GValue.str "G7") []) "~/profile" =
      [⟨pathJoin "~/profile" "coef_rows", GValue.list [],
        "expected minimum 1 item(s) but got 0"⟩]
    ∧ coefRowsViolations (mkCoefProfile (GValue.str "CUSTOM") []) "~/profile" =
      [⟨pathJoin "~/profile" "coef_rows", GValue.list [],
        "expected minimum 1 item(s) but got 0"⟩] := by
  rcases rows with _ | ⟨r1, rows⟩
  · simp only [List.length_nil] at h6
    omega
  rcases rows with _ | ⟨r2, rows⟩
  · simp only [List.length_cons, List.length_nil] at h6
    omega
  rcases rows with _ | ⟨r3, rows⟩
  · simp only [List.length_cons, List.length_nil] at h6
    omega
  rcases rows with _ | ⟨r4, rows⟩
  · simp only [List.length_cons, List.length_nil] at h6
    omega
  rcases rows with _ | ⟨r5, rows⟩
  · simp only [List.length_cons, List.length_nil] at h6
    omega
  rcases rows with _ | ⟨r6, rows⟩
  · simp only [List.length_cons, List.length_nil] at h6
    omega
  rcases rows with _ | ⟨r7, rows⟩
  case cons.cons.cons.cons.cons.cons.cons =>
    simp only [List.length_cons, List.length_nil] at h6
    omega
  have hb1 := hbc r1 (by simp)
  have hb2 := hbc r2 (by simp)
  have hb3 := hbc r3 (by simp)
  have hb4 := hbc r4 (by simp)
  have hb5 := hbc r5 (by simp)
  have hb6 := hbc r6 (by simp)
  have hs1 := hmvs r1 (by simp)
  have hs2 := hmvs r2 (by simp)
  have hs3 := hmvs r3 (by simp)
  have hs4 := hmvs r4 (by simp)
  have hs5 := hmvs r5 (by simp)
  have hs6 := hmvs r6 (by simp)
  have hc1 := hmvc r1 (by simp)
  have hc2 := hmvc r2 (by simp)
  have hc3 := hmvc r3 (by simp)
  have hc4 := hmvc r4 (by simp)
  have hc5 := hmvc r5 (by simp)
  have hc6 := hmvc r6 (by simp)
  have gbt : get_criteria stdCoefCriteria (pathJoin "~/profile" "bc_type") =
      none := by rfl
  have gcr : get_criteria stdCoefCriteria (pathJoin "~/profile" "coef_rows") =
      some (coefRowsCountCrit 5) := by rfl
  have gpr : get_criteria stdCoefCriteria "~/profile" = none := by rfl
  have cbt : get_criteria customCoefCriteria
      (pathJoin "~/profile" "bc_type") = none := by rfl
  have ccr : get_criteria customCoefCriteria
      (pathJoin "~/profile" "coef_rows") = some (coefRowsCountCrit 200) := by rfl
  have cpr : get_criteria customCoefCriteria "~/profile" = none := by rfl
  have sel0 : get_criteria stdCoefCriteria
      (pathJoin (pathJoin "~/profile" "coef_rows") ("[" ++ toString 0 ++ "]")) = none := by rfl
  have sbc0 : get_criteria stdCoefCriteria
      (pathJoin (pathJoin (pathJoin "~/profile" "coef_rows") ("[" ++ toString 0 ++ "]")) "bc_cd") = some _check_bc_value := by rfl
  have smv0 : get_criteria stdCoefCriteria
      (pathJoin (pathJoin (pathJoin "~/profile" "coef_rows") ("[" ++ toString 0 ++ "]")) "mv") = some _check_mv_value := by rfl
  have cel0 : get_criteria customCoefCriteria
      (pathJoin (pathJoin "~/profile" "coef_rows") ("[" ++ toString 0 ++ "]")) = none := by rfl
  have cbc0 : get_criteria customCoefCriteria
      (pathJoin (pathJoin (pathJoin "~/profile" "coef_rows") ("[" ++ toString 0 ++ "]")) "bc_cd") = some _check_cd_value := by rfl
  have cmv0 : get_criteria customCoefCriteria
      (pathJoin (pathJoin (pathJoin "~/profile" "coef_rows") ("[" ++ toString 0 ++ "]")) "mv") = some _check_ma_value := by rfl
  have sel1 : get_criteria stdCoefCriteria
      (pathJoin (pathJoin "~/profile" "coef_rows") ("[" ++ toString 1 ++ "]")) = none := by rfl
  have sbc1 : get_criteria stdCoefCriteria
      (pathJoin (pathJoin (pathJoin "~/profile" "coef_rows") ("[" ++ toString 1 ++ "]")) "bc_cd") = some _check_bc_value := by rfl
  have smv1 : get_criteria stdCoefCriteria
      (pathJoin (pathJoin (pathJoin "~/profile" "coef_rows") ("[" ++ toString 1 ++ "]")) "mv") = some _check_mv_value := by rfl
  have cel1 : get_criteria customCoefCriteria
      (pathJoin (pathJoin "~/profile" "coef_rows") ("[" ++ toString 1 ++ "]")) = none := by rfl
  have cbc1 : get_criteria customCoefCriteria
      (pathJoin (pathJoin (pathJoin "~/profile" "coef_rows") ("[" ++ toString 1 ++ "]")) "bc_cd") = some _check_cd_value := by rfl
  have cmv1 : get_criteria customCoefCriteria
      (pathJoin (pathJoin (pathJoin "~/profile" "coef_rows") ("[" ++ toString 1 ++ "]")) "mv") = some _check_ma_value := by rfl
  have sel2 : get_criteria stdCoefCriteria
      (pathJoin (pathJoin "~/profile" "coef_rows") ("[" ++ toString 2 ++ "]")) = none := by rfl
  have sbc2 : get_criteria stdCoefCriteria
      (pathJoin (pathJoin (pathJoin "~/profile" "coef_rows") ("[" ++ toString 2 ++ "]")) "bc_cd") = some _check_bc_value := by rfl
  have smv2 : get_criteria stdCoefCriteria
      (pathJoin (pathJoin (pathJoin "~/profile" "coef_rows") ("[" ++ toString 2 ++ "]")) "mv") = some _check_mv_value := by rfl
  have cel2 : get_criteria customCoefCriteria
      (pathJoin (pathJoin "~/profile" "coef_rows") ("[" ++ toString 2 ++ "]")) = none := by rfl
  have cbc2 : get_criteria customCoefCriteria
      (pathJoin (pathJoin (pathJoin "~/profile" "coef_rows") ("[" ++ toString 2 ++ "]")) "bc_cd") = some _check_cd_value := by rfl
  have cmv2 : get_criteria customCoefCriteria
      (pathJoin (pathJoin (pathJoin "~/profile" "coef_rows") ("[" ++ toString 2 ++ "]")) "mv") = some _check_ma_value := by rfl
  have sel3 : get_criteria stdCoefCriteria
      (pathJoin (pathJoin "~/profile" "coef_rows") ("[" ++ toString 3 ++ "]")) = none := by rfl
  have sbc3 : get_criteria stdCoefCriteria
      (pathJoin (pathJoin (pathJoin "~/profile" "coef_rows") ("[" ++ toString 3 ++ "]")) "bc_cd") = some _check_bc_value := by rfl
  have smv3 : get_criteria stdCoefCriteria
      (pathJoin (pathJoin (pathJoin "~/profile" "coef_rows") ("[" ++ toString 3 ++ "]")) "mv") = some _check_mv_value := by rfl
  have cel3 : get_criteria customCoefCriteria
      (pathJoin (pathJoin "~/profile" "coef_rows") ("[" ++ toString 3 ++ "]")) = none := by rfl
  have cbc3 : get_criteria customCoefCriteria
      (pathJoin (pathJoin (pathJoin "~/profile" "coef_rows") ("[" ++ toString 3 ++ "]")) "bc_cd") = some _check_cd_value := by rfl
  have cmv3 : get_criteria customCoefCriteria
      (pathJoin (pathJoin (pathJoin "~/profile" "coef_rows") ("[" ++ toString 3 ++ "]")) "mv") = some _check_ma_value := by rfl
  have sel4 : get_criteria stdCoefCriteria
      (pathJoin (pathJoin "~/profile" "coef_rows") ("[" ++ toString 4 ++ "]")) = none := by rfl
  have sbc4 : get_criteria stdCoefCriteria
      (pathJoin (pathJoin (pathJoin "~/profile" "coef_rows") ("[" ++ toString 4 ++ "]")) "bc_cd") = some _check_bc_value := by rfl
  have smv4 : get_criteria stdCoefCriteria
      (pathJoin (pathJoin (pathJoin "~/profile" "coef_rows") ("[" ++ toString 4 ++ "]")) "mv") = some _check_mv_value := by rfl
  have cel4 : get_criteria customCoefCriteria
      (pathJoin (pathJoin "~/profile" "coef_rows") ("[" ++ toString 4 ++ "]")) = none := by rfl
  have cbc4 : get_criteria customCoefCriteria
      (pathJoin (pathJoin (pathJoin "~/profile" "coef_rows") ("[" ++ toString 4 ++ "]")) "bc_cd") = some _check_cd_value := by rfl
  have cmv4 : get_criteria customCoefCriteria
      (pathJoin (pathJoin (pathJoin "~/profile" "coef_rows") ("[" ++ toString 4 ++ "]")) "mv") = some _check_ma_value := by rfl
  have sel5 : get_criteria stdCoefCriteria
      (pathJoin (pathJoin "~/profile" "coef_rows") ("[" ++ toString 5 ++ "]")) = none := by rfl
  have sbc5 : get_criteria stdCoefCriteria
      (pathJoin (pathJoin (pathJoin "~/profile" "coef_rows") ("[" ++ toString 5 ++ "]")) "bc_cd") = some _check_bc_value := by rfl
  have smv5 : get_criteria stdCoefCriteria
      (pathJoin (pathJoin (pathJoin "~/profile" "coef_rows") ("[" ++ toString 5 ++ "]")) "mv") = some _check_mv_value := by rfl
  have cel5 : get_criteria customCoefCriteria
      (pathJoin (pathJoin "~/profile" "coef_rows") ("[" ++ toString 5 ++ "]")) = none := by rfl
  have cbc5 : get_criteria customCoefCriteria
      (pathJoin (pathJoin (pathJoin "~/profile" "coef_rows") ("[" ++ toString 5 ++ "]")) "bc_cd") = some _check_cd_value := by rfl
  have cmv5 : get_criteria customCoefCriteria
      (pathJoin (pathJoin (pathJoin "~/profile" "coef_rows") ("[" ++ toString 5 ++ "]")) "mv") = some _check_ma_value := by rfl
  have chG1 : SpecCriterion.validate _check_bc_type (GValue.str "G1")
      "~/profile" [] = ([], true, "expected one of [G7, G1, CUSTOM]") := by rfl
  have chG7 : SpecCriterion.validate _check_bc_type (GValue.str "G7")
      "~/profile" [] = ([], true, "expected one of [G7, G1, CUSTOM]") := by rfl
  have chCu : SpecCriterion.validate _check_bc_type (GValue.str "CUSTOM")
      "~/profile" [] = ([], true, "expected one of [G7, G1, CUSTOM]") := by rfl
  have bG1 : (GValue.beq (GValue.str "G1") (GValue.str "G7")
      || GValue.beq (GValue.str "G1") (GValue.str "G1")) = true := by rfl
  have bG7 : (GValue.beq (GValue.str "G7") (GValue.str "G7")
      || GValue.beq (GValue.str "G7") (GValue.str "G1")) = true := by rfl
  have bC1 : (GValue.beq (GValue.str "CUSTOM") (GValue.str "G7")
      || GValue.beq (GValue.str "CUSTOM") (GValue.str "G1")) = false := by rfl
  have bC2 : GValue.beq (GValue.str "CUSTOM") (GValue.str "CUSTOM") =
      true := by rfl
  have hG1 : coefRowsViolations
      (mkCoefProfile (GValue.str "G1") [r1, r2, r3, r4, r5, r6])
      "~/profile" =
      [⟨pathJoin "~/profile" "coef_rows",
        GValue.list ([r1, r2, r3, r4, r5, r6].map coefRowDict),
        "expected maximum 5 item(s) but got 6"⟩] := by
    simp [coefRowsViolations, mkCoefProfile, coefRowDict, alookup, svValidate,
      svFields, svItems, gbt, gcr, gpr, sel0, sel1, sel2, sel3, sel4, sel5,
      sbc0, sbc1, sbc2, sbc3, sbc4, sbc5, smv0, smv1, smv2, smv3, smv4, smv5,
      chG1, chG7, bG1, bG7, _check_bc_value, _check_mv_value, pureCrit,
      critValidate_pure, hb1, hb2, hb3, hb4, hb5, hb6,
      hs1, hs2, hs3, hs4, hs5, hs6, coefRowsCountCrit, assert_items_count]
    try rfl
  have hG7 : coefRowsViolations
      (mkCoefProfile (GValue.str "G7") [r1, r2, r3, r4, r5, r6])
      "~/profile" =
      [⟨pathJoin "~/profile" "coef_rows",
        GValue.list ([r1, r2, r3, r4, r5, r6].map coefRowDict),
        "expected maximum 5 item(s) but got 6"⟩] := by
    simp [coefRowsViolations, mkCoefProfile, coefRowDict, alookup, svValidate,
      svFields, svItems, gbt, gcr, gpr, sel0, sel1, sel2, sel3, sel4, sel5,
      sbc0, sbc1, sbc2, sbc3, sbc4, sbc5, smv0, smv1, smv2, smv3, smv4, smv5,
      chG1, chG7, bG1, bG7, _check_bc_value, _check_mv_value, pureCrit,
      critValidate_pure, hb1, hb2, hb3, hb4, hb5, hb6,
      hs1, hs2, hs3, hs4, hs5, hs6, coefRowsCountCrit, assert_items_count]
    try rfl
  have hCust : coefRowsViolations
      (mkCoefProfile (GValue.str "CUSTOM") [r1, r2, r3, r4, r5, r6])
      "~/profile" = [] := by
    simp [coefRowsViolations, mkCoefProfile, coefRowDict, alookup, svValidate,
      svFields, svItems, cbt, ccr, cpr, cel0, cel1, cel2, cel3, cel4, cel5,
      cbc0, cbc1, cbc2, cbc3, cbc4, cbc5, cmv0, cmv1, cmv2, cmv3, cmv4, cmv5,
      chCu, bC1, bC2, _check_cd_value, _check_ma_value, pureCrit,
      critValidate_pure, hb1, hb2, hb3, hb4, hb5, hb6,
      hc1, hc2, hc3, hc4, hc5, hc6, coefRowsCountCrit, assert_items_count]
    try rfl
  refine ⟨hG1, hG7, hCust, ?_, rfl, rfl, rfl⟩
  rw [_check_coef_rows, hCust]
  simp

/-- C3 witness at six in-range rows `(1000, 100)`. -/
theorem c3_witness :
    coefRowsViolations (mkCoefProfile (GValue.str "CUSTOM")
      [(1000, 100), (1000, 100), (1000, 100), (1000, 100), (1000, 100),
        (1000, 100)]) "~/profile" = []
    ∧ coefRowsViolations (mkCoefProfile (GValue.str "G1")
      [(1000, 100), (1000, 100), (1000, 100), (1000, 100), (1000, 100),
        (1000, 100)]) "~/profile" =
      [⟨pathJoin "~/profile" "coef_rows",
        GValue.list ([(1000, 100), (1000, 100), (1000, 100), (1000, 100),
          (1000, 100), ((1000 : Int), (100 : Int))].map coefRowDict),
        "expected maximum 5 item(s) but got 6"⟩] :=
  have h := c3_coef_rows_discriminator
    [(1000, 100), (1000, 100), (1000, 100), (1000, 100), (1000, 100),
      (1000, 100)] [] rfl (by decide) (by decide) (by decide)
  ⟨h.2.2.1, h.1⟩

/-- C8 counterexample to the claim as stated: with `distances = []` and
`c_zero_distance_idx = 0` the dependency violation is recorded with the
bare path string `"Distances"` (not the `distances` path), and it appears
in the collected list before the `distances` items-count field check, not
after the per-field checks of both sibling fields. -/
theorem c8_counterexample :
    (distancesViolations 0 [] "~/profile").map SpecViolation.path =
      ["Distances", "~/profile/distances"]
    ∧ "Distances" ≠ "~/profile/distances" :=
  ⟨rfl, by decide⟩

end SpecV

namespace Rec

theorem recover_length (r : Recover) (viols : List Violation) :
    ∀ p : Payload, (r.recover p viols).2.length = viols.length := by
  induction viols with
  | nil => intro p; rfl
  | cons v vs ih =>
      intro p
      simp only [Recover.recover, List.length_cons, ih]

/-- C6: `Recover.recover` processes the violations in order and emits
exactly one `RecoverResult` per violation; a registered fix snapshots the
value at the violation path, applies the fix and re-reads, reporting
`recovered = true` with old/new values; an unregistered path reports
`recovered = false` and leaves the payload untouched. -/
theorem c6_recover_per_violation (r : Recover) (p : Payload) (v : Violation)
    (vs : List Violation) (f : Payload → Payload) :
    (∀ (q : Payload) (viols : List Violation),
      (r.recover q viols).2.length = viols.length)
    ∧ r.recover p (v :: vs) =
      ((r.recover (r.recover_one p v).1 vs).1,
        (r.recover_one p v).2 :: (r.recover (r.recover_one p v).1 vs).2)
    ∧ (alookup r.recover_funcs v.path = some f →
      r.recover_one p v = (f p, ⟨true, v.path,
        some (walkPath (PNode.payload p) (r.split_path v.path)),
        some (walkPath (PNode.payload (f p)) (r.split_path v.path))⟩))
    ∧ (alookup r.recover_funcs v.path = none →
      r.recover_one p v = (p, ⟨false, v.path, none, none⟩)) := by
  refine ⟨fun q viols => recover_length r viols q, rfl, fun h => ?_,
    fun h => ?_⟩
  · simp only [Recover.recover_one, h]
  · simp only [Recover.recover_one, h]

/-- The demo payload used by the concrete recovery witnesses: an
out-of-range `zero_x`. -/
def demoPayload : Payload := ⟨{ zero_x := 999999 }⟩

/-- C6 witness: the spec-tier registry recovers a `zero_x` violation
(zeroing the field) and skips an unregistered path. -/
theorem c6_witness :
    (recover_spec.recover_one demoPayload
      ⟨"~/profile/zero_x", "", ""⟩).2.recovered = true
    ∧ (recover_spec.recover_one demoPayload
        ⟨"~/profile/zero_x", "", ""⟩).1.profile.zero_x = 0
    ∧ recover_spec.recover_one demoPayload ⟨"bogus.path", "", ""⟩ =
      (demoPayload, ⟨false, "bogus.path", none, none⟩) :=
  have h1 := (c6_recover_per_violation recover_spec demoPayload
    ⟨"~/profile/zero_x", "", ""⟩ [] _recover_zero_x).2.2.1 (by rfl)
  have h2 := (c6_recover_per_violation recover_spec demoPayload
    ⟨"bogus.path", "", ""⟩ [] _recover_zero_x).2.2.2 (by rfl)
  ⟨by rw [h1], by rw [h1]; rfl, h2⟩

/-- C10: the recovery functions registered for `c_zero_air_humidity` — in
both the spec and the proto tier — leave the humidity field unchanged and
set the sibling `c_zero_air_pressure` to 0; recovering a humidity
violation therefore reports `recovered = true` while modifying a field
other than the one named by the violation path. -/
theorem c10_humidity_fix_targets_pressure (p : Payload)
    (value reason value2 reason2 : String) :
    (_recover_spec_c_zero_air_humidity p).profile.c_zero_air_humidity =
      p.profile.c_zero_air_humidity
    ∧ (_recover_spec_c_zero_air_humidity p).profile.c_zero_air_pressure = 0
    ∧ (_recover_proto_c_zero_air_humidity p).profile.c_zero_air_humidity =
      p.profile.c_zero_air_humidity
    ∧ (_recover_proto_c_zero_air_humidity p).profile.c_zero_air_pressure = 0
    ∧ (recover_spec.recover_one p
        ⟨"~/profile/c_zero_air_humidity", value, reason⟩).2.recovered = true
    ∧ (recover_spec.recover_one p
        ⟨"~/profile/c_zero_air_humidity", value, reason⟩).1.profile.c_zero_air_humidity =
      p.profile.c_zero_air_humidity
    ∧ (recover_spec.recover_one p
        ⟨"~/profile/c_zero_air_humidity", value, reason⟩).1.profile.c_zero_air_pressure = 0
    ∧ (recover_proto.recover_one p
        ⟨"profile.c_zero_air_humidity", value2, reason2⟩).2.recovered = true
    ∧ (recover_proto.recover_one p
        ⟨"profile.c_zero_air_humidity", value2, reason2⟩).1.profile.c_zero_air_humidity =
      p.profile.c_zero_air_humidity
    ∧ (recover_proto.recover_one p
        ⟨"profile.c_zero_air_humidity", value2, reason2⟩).1.profile.c_zero_air_pressure =
      0 :=
  ⟨rfl, rfl, rfl, rfl, rfl, rfl, rfl, rfl, rfl, rfl⟩

/-- C5: when validation of a payload is clean, the recovery pipeline is a
no-op — `recover_payload` sees no validation error and never calls
`attempt_to_recover`, so no `RecoverResult` is produced.  In particular a
second pipeline run on a record the first run left fully valid returns the
same record with zero results. -/
theorem c5_pipeline_idempotent (V : ValidateFn) (p : Payload)
    (h : V false (recoverPipeline V p).payload = none) :
    recoverPipeline V ((recoverPipeline V p).payload) =
      ⟨(recoverPipeline V p).payload, [], [], true⟩ := by
  have hu : recoverPipeline V ((recoverPipeline V p).payload) =
      match V false ((recoverPipeline V p).payload) with
      | none => ⟨(recoverPipeline V p).payload, [], [], true⟩
      | some vs => attempt_to_recover V ((recoverPipeline V p).payload)
          vs.spec_violations := rfl
  rw [hu, h]

/-- A demo validator for the pipeline witnesses: `zero_x` above its limit
is the single (spec and proto) violation. -/
def demoValidate : ValidateFn := fun _ q =>
  if 200000 < q.profile.zero_x then
    some { violations := [⟨"~/profile/zero_x", "", ""⟩],
           spec_violations := [⟨"~/profile/zero_x", "", ""⟩],
           proto_violations := [⟨"profile.zero_x", "", ""⟩] }
  else none

/-- C5 witness: the first run recovers `zero_x` (spec tier sets it to 0),
so the second run short-circuits with zero results. -/
theorem c5_witness :
    recoverPipeline demoValidate
        ((recoverPipeline demoValidate demoPayload).payload) =
      ⟨(recoverPipeline demoValidate demoPayload).payload, [], [], true⟩ :=
  c5_pipeline_idempotent demoValidate demoPayload (by rfl)

end Rec

namespace Yup

/-- One step of `_validate_shape`, unfolded onto `shapeFieldAttempt`. -/
theorem yvalidateShape_cons (k : String) (f : YSchema)
    (rest : List (String × YSchema)) (kvs : List (String × GValue))
    (abortEarly : Bool) (path : String) (errs : List YError) :
    yvalidateShape ((k, f) :: rest) kvs abortEarly path errs =
      match shapeFieldAttempt kvs abortEarly path (k, f) with
      | .ok _ => yvalidateShape rest kvs abortEarly path errs
      | .error e =>
          if abortEarly then
            Except.error (mkYError e.constraint (concat_path path k) [])
          else yvalidateShape rest kvs abortEarly path (errs ++ [e]) := rfl

theorem shapeErrs_cons (k : String) (f : YSchema)
    (rest : List (String × YSchema)) (kvs : List (String × GValue))
    (abortEarly : Bool) (path : String) :
    shapeErrs ((k, f) :: rest) kvs abortEarly path =
      (match errOf (shapeFieldAttempt kvs abortEarly path (k, f)) with
        | some e => [(k, e)]
        | none => []) ++ shapeErrs rest kvs abortEarly path := by
  simp only [shapeErrs, List.filterMap_cons]
  cases errOf (shapeFieldAttempt kvs abortEarly path (k, f)) <;> simp

/-- Fail-fast characterization of `_validate_shape`: the first failing
field in declaration order aborts the walk with its constraint re-raised
at that field's path; with no failing field the walk only reports
previously accumulated errors. -/
theorem yvalidateShape_true (fields : List (String × YSchema))
    (kvs : List (String × GValue)) (path : String) :
    ∀ errs, yvalidateShape fields kvs true path errs =
      match shapeErrs fields kvs true path with
      | [] =>
          if errs.isEmpty then Except.ok ()
          else Except.error (mkYError ⟨"array", path, "invalid object"⟩
            path errs)
      | (k, e) :: _ =>
          Except.error (mkYError e.constraint (concat_path path k) []) := by
  induction fields with
  | nil => intro errs; rfl
  | cons kf rest ih =>
      obtain ⟨k, f⟩ := kf
      intro errs
      rw [yvalidateShape_cons, shapeErrs_cons]
      cases hA : shapeFieldAttempt kvs true path (k, f) with
      | ok u => simp only [errOf, List.nil_append, ih errs]
      | error e => simp only [errOf, if_true, List.cons_append]

/-- Collect-all characterization of `_validate_shape`: the walk never
aborts; all failing fields contribute their errors, wrapped in one
aggregate error when any exist. -/
theorem yvalidateShape_false (fields : List (String × YSchema))
    (kvs : List (String × GValue)) (path : String) :
    ∀ errs, yvalidateShape fields kvs false path errs =
      (if (errs ++ (shapeErrs fields kvs false path).map Prod.snd).isEmpty
        then Except.ok ()
        else Except.error (mkYError ⟨"array", path, "invalid object"⟩ path
          (errs ++ (shapeErrs fields kvs false path).map Prod.snd))) := by
  induction fields with
  | nil =>
      intro errs
      simp only [yvalidateShape, shapeErrs, List.filterMap_nil, List.map_nil,
        List.append_nil]
  | cons kf rest ih =>
      obtain ⟨k, f⟩ := kf
      intro errs
      rw [yvalidateShape_cons, shapeErrs_cons]
      cases hA : shapeFieldAttempt kvs false path (k, f) with
      | ok u => simp only [errOf, List.nil_append, ih errs]
      | error e =>
          simp only [errOf, Bool.false_eq_true, if_false, List.cons_append,
            ih (errs ++ [e]), List.append_assoc, List.singleton_append,
            List.nil_append, List.map_cons]

mutual
/-- `abort_early` changes only which error is reported, never whether
validation succeeds. -/
theorem yvalidate_ok_mode (s : YSchema) (v : GValue) (path : String) :
    (yvalidate s v true path = Except.ok ()) ↔
      (yvalidate s v false path = Except.ok ()) := by
  cases s with
  | scalar cfg => exact Iff.rfl
  | obj cfg fields =>
      show (yvalidate (YSchema.obj cfg fields) v true path = Except.ok ()) ↔ _
      rw [yvalidate, yvalidate]
      cases hs : scalarChecks cfg v with
      | some c => simp
      | none =>
          have hkeys := shapeErrs_keys_mode fields (GValue.asDict v) path
          rw [yvalidateShape_true, yvalidateShape_false]
          cases hT : shapeErrs fields (GValue.asDict v) true path with
          | nil =>
              have : shapeErrs fields (GValue.asDict v) false path = [] := by
                have := hkeys
                rw [hT] at this
                exact List.map_eq_nil_iff.1 this.symm
              rw [this]
              simp
          | cons ke rest =>
              obtain ⟨k, e⟩ := ke
              have : shapeErrs fields (GValue.asDict v) false path ≠ [] := by
                intro hnil
                rw [hT, hnil] at hkeys
                simp at hkeys
              rcases List.exists_cons_of_ne_nil this with ⟨ke2, rest2, h2⟩
              rw [h2]
              simp
termination_by sizeOf s

theorem shapeErrs_keys_mode (fields : List (String × YSchema))
    (kvs : List (String × GValue)) (path : String) :
    (shapeErrs fields kvs true path).map Prod.fst =
      (shapeErrs fields kvs false path).map Prod.fst := by
  cases fields with
  | nil => rfl
  | cons kf rest =>
      obtain ⟨k, f⟩ := kf
      rw [shapeErrs_cons, shapeErrs_cons]
      have hrest := shapeErrs_keys_mode rest kvs path
      have hmode : (shapeFieldAttempt kvs true path (k, f) = Except.ok ()) ↔
          (shapeFieldAttempt kvs false path (k, f) = Except.ok ()) := by
        simp only [shapeFieldAttempt]
        split
        · exact Iff.rfl
        · cases halk : alookup kvs k with
          | none => exact Iff.rfl
          | some v => exact yvalidate_ok_mode f v (concat_path path k)
      cases hT : shapeFieldAttempt kvs true path (k, f) with
      | ok u =>
          cases hF : shapeFieldAttempt kvs false path (k, f) with
          | ok u2 => simp [errOf, hrest]
          | error e2 =>
              rw [hF] at hmode
              rw [hT] at hmode
              simp at hmode
      | error e =>
          cases hF : shapeFieldAttempt kvs false path (k, f) with
          | ok u2 =>
              rw [hF] at hmode
              rw [hT] at hmode
              simp at hmode
          | error e2 => simp [errOf, hrest]
termination_by sizeOf fields
end

/-- C4: on a record with exactly three independent field violations, the
fail-fast walk stops at and reports only the first violation in
declaration order (the same field in both modes), while the collect-all
walk never aborts and returns all three in one aggregate error. -/
theorem c4_fail_fast_vs_collect_all (fields : List (String × YSchema))
    (kvs : List (String × GValue)) (path : String)
    (h3 : (shapeErrs fields kvs false path).length = 3) :
    (∃ k e rest, shapeErrs fields kvs true path = (k, e) :: rest
      ∧ yvalidateShape fields kvs true path [] =
          Except.error (mkYError e.constraint (concat_path path k) [])
      ∧ (shapeErrs fields kvs false path).head?.map Prod.fst = some k)
    ∧ yvalidateShape fields kvs false path [] =
        Except.error (mkYError ⟨"array", path, "invalid object"⟩ path
          ((shapeErrs fields kvs false path).map Prod.snd))
    ∧ ((shapeErrs fields kvs false path).map Prod.snd).length = 3 := by
  have hkeys := shapeErrs_keys_mode fields kvs path
  have hne : shapeErrs fields kvs false path ≠ [] := by
    intro hnil
    rw [hnil] at h3
    simp at h3
  have hneT : shapeErrs fields kvs true path ≠ [] := by
    intro hnil
    rw [hnil] at hkeys
    exact hne (List.map_eq_nil_iff.1 hkeys.symm)
  rcases List.exists_cons_of_ne_nil hneT with ⟨⟨k, e⟩, rest, hT⟩
  refine ⟨⟨k, e, rest, hT, ?_, ?_⟩, ?_, ?_⟩
  · rw [yvalidateShape_true, hT]
  · rcases List.exists_cons_of_ne_nil hne with ⟨⟨k2, e2⟩, rest2, hF⟩
    rw [hT, hF] at hkeys
    simp only [List.map_cons, List.cons.injEq] at hkeys
    rw [hF]
    simp [hkeys.1]
  · rw [yvalidateShape_false]
    have : ((shapeErrs fields kvs false path).map Prod.snd).length = 3 := by
      rw [List.length_map]
      exact h3
    rw [List.nil_append]
    split
    · rename_i hemp
      rw [List.isEmpty_iff] at hemp
      rw [hemp] at this
      simp at this
    · rfl
  · rw [List.length_map]
    exact h3

theorem c4_witness :
    (Yup.shapeErrs Yup.demoFields Yup.demoKvs false "").length = 3 ∧
    ((∃ k e rest,
        Yup.shapeErrs Yup.demoFields Yup.demoKvs true "" = (k, e) :: rest
        ∧ Yup.yvalidateShape Yup.demoFields Yup.demoKvs true "" [] =
            Except.error (Yup.mkYError e.constraint (Yup.concat_path "" k) [])
        ∧ (Yup.shapeErrs Yup.demoFields Yup.demoKvs false "").head?.map
            Prod.fst = some k)
      ∧ Yup.yvalidateShape Yup.demoFields Yup.demoKvs false "" [] =
          Except.error (Yup.mkYError ⟨"array", "", "invalid object"⟩ ""
            ((Yup.shapeErrs Yup.demoFields Yup.demoKvs false "").map
              Prod.snd))
      ∧ ((Yup.shapeErrs Yup.demoFields Yup.demoKvs false "").map
          Prod.snd).length = 3) :=
  ⟨by rfl, c4_fail_fast_vs_collect_all Yup.demoFields Yup.demoKvs "" (by rfl)⟩

end Yup
